import Mathlib

/-!
Verification of the HugeCTR fused loss engines (`HugeCTR/src/loss.cu`).

The development is a shallow embedding of the three loss engines
(`CrossEntropyLoss`, `BinaryCrossEntropyLoss`, `MultiCrossEntropyLoss`):
tensor metadata (dims + layout format) becomes a small structure, the
construction-time and call-time shape/format validation becomes functions
into `Except`, the device save/switch/restore discipline becomes explicit
state passing of the ambient device id, and the per-element kernel
arithmetic is embedded over `ℚ` with the device math-library `exp`/`log`
routines abstracted as function parameters (they are external collaborators
of this core).  Every definition mirrors the corresponding lines of
`loss.cu`; definitions whose names start with `spec` instead transcribe a
formula of the specification, for comparison against the code-derived ones.
-/

/-- Tensor layout tag: `HW` is row-major (samples × features), `WH` is
column-major (features × samples).  Mirrors `TensorFormat_t`. -/
inductive TensorFormat_t where
  | HW
  | WH
deriving DecidableEq, Repr

/-- The only error class raised by this file of the source: `Error_t::WrongInput`. -/
inductive Error_t where
  | WrongInput
deriving DecidableEq, Repr

/-- Metadata of a `Tensor<float>`: the dimension list returned by `get_dims()`
and the layout returned by `get_format()`. -/
structure Tensor where
  dims : List Nat
  format : TensorFormat_t
deriving DecidableEq, Repr

/-- Row-major test, mirroring `input_tensor.get_format() == TensorFormat_t::HW`. -/
def Tensor.row_major (t : Tensor) : Prop := t.format = TensorFormat_t.HW

instance (t : Tensor) : Decidable t.row_major := by
  unfold Tensor.row_major
  infer_instance

/-- The batch-dimension entry of a tensor, as read in `fused_loss_computation`:
`dims[0]` when row-major, `dims[1]` when column-major (loss.cu line 87/184). -/
def Tensor.batch_size (t : Tensor) : Nat :=
  if t.row_major then t.dims.getD 0 0 else t.dims.getD 1 0

/-- The feature-dimension entry of a tensor, as read in `fused_loss_computation`:
`dims[1]` when row-major, `dims[0]` when column-major (loss.cu line 88/185). -/
def Tensor.feature_dim (t : Tensor) : Nat :=
  if t.row_major then t.dims.getD 1 0 else t.dims.getD 0 0

/-- References held by an engine after construction: the bound device and the
three tensor references pushed by the constructor (loss.cu lines 24-30, 128-135). -/
structure LossEngineRefs where
  device_id : Int
  label : Tensor
  input : Tensor
  loss : Tensor
deriving DecidableEq, Repr

/-- `CrossEntropyLoss::CrossEntropyLoss` (loss.cu lines 24-30): stores the three
tensor references and the device id.  It performs no validation of any kind and
cannot fail. -/
def CrossEntropyLoss.construct (label_tensors input_tensors loss_tensors : Tensor)
    (device_id : Int) : Except Error_t LossEngineRefs :=
  Except.ok ⟨device_id, label_tensors, input_tensors, loss_tensors⟩

/-- `BinaryCrossEntropyLoss::BinaryCrossEntropyLoss` (loss.cu lines 128-135):
stores the three tensor references and the device id; no validation, cannot fail. -/
def BinaryCrossEntropyLoss.construct (label_tensors input_tensors loss_tensors : Tensor)
    (device_id : Int) : Except Error_t LossEngineRefs :=
  Except.ok ⟨device_id, label_tensors, input_tensors, loss_tensors⟩

/-- `MultiCrossEntropyLoss::MultiCrossEntropyLoss` (loss.cu lines 306-337):
validates the label/input tensors and the weight-vector length before any
device-memory operation; on success the caller-supplied `target_weight` vector
is copied into the internally owned buffer, which the `ok` value models.
The first guard transcribes the `||`-chain of lines 311-314 (short-circuit
order preserved) and the second transcribes line 318. -/
def MultiCrossEntropyLoss.construct (label_tensor input_tensor : Tensor)
    (target_weight : List ℚ) : Except Error_t (List ℚ) :=
  if label_tensor.dims.length ≠ 2 ∨ label_tensor.format ≠ TensorFormat_t.HW ∨
      input_tensor.dims.length ≠ 2 ∨ input_tensor.format ≠ TensorFormat_t.HW ∨
      label_tensor.dims.getD 0 0 ≠ input_tensor.dims.getD 0 0 ∨
      label_tensor.dims.getD 1 0 ≠ input_tensor.dims.getD 1 0 then
    Except.error Error_t.WrongInput
  else if target_weight.length ≠ input_tensor.dims.getD 1 0 then
    Except.error Error_t.WrongInput
  else
    Except.ok target_weight

/-- Validation segment of `CrossEntropyLoss::fused_loss_computation`
(loss.cu lines 79-95): format agreement, input feature dimension must be 2,
and the input/label batch-dimension entries must agree (dims[0] when
row-major, dims[1] when column-major). -/
def CrossEntropyLoss.validate (input_tensor label_tensor : Tensor) : Except Error_t Unit :=
  if input_tensor.format ≠ label_tensor.format then Except.error Error_t.WrongInput
  else if input_tensor.feature_dim ≠ 2 then Except.error Error_t.WrongInput
  else if input_tensor.row_major ∧
      input_tensor.dims.getD 0 0 ≠ label_tensor.dims.getD 0 0 then
    Except.error Error_t.WrongInput
  else if ¬input_tensor.row_major ∧
      input_tensor.dims.getD 1 0 ≠ label_tensor.dims.getD 1 0 then
    Except.error Error_t.WrongInput
  else Except.ok ()

/-- Validation segment of `BinaryCrossEntropyLoss::fused_loss_computation`
(loss.cu lines 176-188): format agreement and input feature dimension must
be 1.  There is no batch-dimension agreement check. -/
def BinaryCrossEntropyLoss.validate (input_tensor label_tensor : Tensor) : Except Error_t Unit :=
  if input_tensor.format ≠ label_tensor.format then Except.error Error_t.WrongInput
  else if input_tensor.feature_dim ≠ 1 then Except.error Error_t.WrongInput
  else Except.ok ()

/-- Launch configuration of a `<<<grid, block>>>` kernel launch. -/
structure KernelLaunch where
  grid : Nat
  block : Nat
deriving DecidableEq, Repr

/-- `CrossEntropyLoss::fused_loss_computation` (loss.cu lines 71-126), device
and control flow: the call switches the ambient device from `caller_device`
to `engine_device` (line 73), validates, and on success launches
`<<<1, min(batch_size, 1024)>>>` and restores the caller's device (line 125).
A thrown `WrongInput` propagates out of the function before the restore at
line 125 runs, so on the error path the ambient device stays the engine's.
The second component of the result is the ambient device when control
returns to the caller. -/
def CrossEntropyLoss.fused_loss_computation (engine_device caller_device : Int)
    (input_tensor label_tensor : Tensor) : Except Error_t KernelLaunch × Int :=
  match CrossEntropyLoss.validate input_tensor label_tensor with
  | Except.error e => (Except.error e, engine_device)
  | Except.ok _ => (Except.ok ⟨1, min input_tensor.batch_size 1024⟩, caller_device)

/-- `BinaryCrossEntropyLoss::fused_loss_computation` (loss.cu lines 168-219),
device and control flow, exactly as in the cross-entropy engine but with its
own validation. -/
def BinaryCrossEntropyLoss.fused_loss_computation (engine_device caller_device : Int)
    (input_tensor label_tensor : Tensor) : Except Error_t KernelLaunch × Int :=
  match BinaryCrossEntropyLoss.validate input_tensor label_tensor with
  | Except.error e => (Except.error e, engine_device)
  | Except.ok _ => (Except.ok ⟨1, min input_tensor.batch_size 1024⟩, caller_device)

/-- Grid size of the multi-label kernel launch (loss.cu line 277):
`min(40, (batchsize * labels_per_sample - 1) / BLOCK_SIZE)` with
`BLOCK_SIZE = 256` and C integer division.  For `batchsize * labels_per_sample
≥ 1` the truncating `Nat` subtraction agrees with the C expression. -/
def MultiCrossEntropyLoss.GRID_SIZE (batchsize labels_per_sample : Nat) : Nat :=
  min 40 ((batchsize * labels_per_sample - 1) / 256)

/-- `MultiCrossEntropyLoss::fused_loss_computation` (loss.cu lines 266-304):
no validation is performed; `batchsize` and `labels_per_sample` are read from
`dims[0]` and `dims[1]` of the input tensor, the launch is
`<<<GRID_SIZE, 256>>>`, and the caller's device is restored on return. -/
def MultiCrossEntropyLoss.fused_loss_computation (_engine_device caller_device : Int)
    (input_tensor : Tensor) : Except Error_t KernelLaunch × Int :=
  let batchsize := input_tensor.dims.getD 0 0
  let labels_per_sample := input_tensor.dims.getD 1 0
  (Except.ok ⟨MultiCrossEntropyLoss.GRID_SIZE batchsize labels_per_sample, 256⟩,
   caller_device)

/-- Per-sample body of `CrossEntropy_Kernel` (loss.cu lines 43-60) given the
two logits `in1 = input[id1]`, `in2 = input[id2]` and the label `y = label[i]`.
`fexp`/`flog` abstract the device `exp`/`log` routines.  The result is
`(new input[id1], new input[id2], increment of loss_s[tid])`. -/
def CrossEntropy_Kernel.sample (fexp flog : ℚ → ℚ) (in1 in2 y : ℚ)
    (batch_size scaler : ℚ) : ℚ × ℚ × ℚ :=
  let z0_exp := fexp in1
  let z1_exp := fexp in2
  let a0 := z0_exp / (z0_exp + z1_exp)
  let a1 := z1_exp / (z0_exp + z1_exp)
  ((a0 - if y < 1/2 then (1 : ℚ) else 0) / batch_size * scaler,
   (a1 - if ¬y < 1/2 then (1 : ℚ) else 0) / batch_size * scaler,
   -1 * flog (if y < 1/2 then a0 else a1))

/-- One iteration of the `CrossEntropy_Kernel` loop for sample `i` acting on
the whole input/label buffers (loss.cu lines 43-60): the element indices
`id1`, `id2` are computed from the layout, the per-sample body runs on
`input[id1]`, `input[id2]`, `label[i]`, and the two gradient values are
written back in place.  The result is the updated input buffer and the
increment of `loss_s[tid]`. -/
def CrossEntropy_Kernel.step (fexp flog : ℚ → ℚ) (input label : Nat → ℚ)
    (batch_size feature_dim : Nat) (row_major : Bool) (scaler : ℚ) (i : Nat) :
    (Nat → ℚ) × ℚ :=
  let id1 := if row_major then i * feature_dim else i
  let id2 := if row_major then i * feature_dim + 1 else i + batch_size
  let r := CrossEntropy_Kernel.sample fexp flog (input id1) (input id2) (label i)
    (batch_size : ℚ) scaler
  (fun j => if j = id1 then r.1 else if j = id2 then r.2.1 else input j, r.2.2)

/-- Final reduction of `CrossEntropy_Kernel` (loss.cu lines 63-68): thread 0
sums the shared per-thread partials and divides by the batch size. -/
def CrossEntropy_Kernel.final_reduce (loss_s : List ℚ) (batch_size : ℚ) : ℚ :=
  loss_s.sum / batch_size

/-- Per-sample body of `BinaryCrossEntropy_Kernel` (loss.cu lines 148-158)
given `input_i = input[i]` and `label_i = label[i]`.  The result is
`(increment of loss_s[tid], new input[i])`. -/
def BinaryCrossEntropy_Kernel.sample (fexp flog : ℚ → ℚ) (input_i label_i : ℚ)
    (batch_size scaler : ℚ) : ℚ × ℚ :=
  let MIN_ : ℚ := 1/1000000
  let MIN_X : ℚ := -707
  let x := if input_i < MIN_X then MIN_X else input_i
  let exp_neg_x := fexp (-x)
  let val := 1 / (1 + exp_neg_x)
  let y := label_i
  (y * flog (val + MIN_) + (1 - y) * flog (1 - val + MIN_),
   -1 * val * (y - val) * exp_neg_x / (1 - val + MIN_) / batch_size * scaler)

/-- One iteration of the `BinaryCrossEntropy_Kernel` loop for sample `i`
acting on the whole buffers: reads `input[i]` and `label[i]`, writes the
gradient back over `input[i]`.  The result is the updated input buffer and
the increment of `loss_s[tid]`. -/
def BinaryCrossEntropy_Kernel.step (fexp flog : ℚ → ℚ) (input label : Nat → ℚ)
    (batch_size : Nat) (scaler : ℚ) (i : Nat) : (Nat → ℚ) × ℚ :=
  let r := BinaryCrossEntropy_Kernel.sample fexp flog (input i) (label i)
    (batch_size : ℚ) scaler
  (fun j => if j = i then r.2 else input j, r.1)

/-- Final reduction of `BinaryCrossEntropy_Kernel` (loss.cu lines 161-165):
thread 0 sums the partials and writes the negated mean. -/
def BinaryCrossEntropy_Kernel.final_reduce (loss_s : List ℚ) (batch_size : ℚ) : ℚ :=
  -loss_s.sum / batch_size

/-- Device helper `cross_entropy_loss` (loss.cu lines 221-228): per-element
sigmoid cross-entropy loss with clamped exponential and epsilon-guarded logs. -/
def cross_entropy_loss (fexp flog : ℚ → ℚ) (x y : ℚ) : ℚ :=
  let MIN_ : ℚ := 1/1000000
  let MIN_X : ℚ := -707
  let exp_neg_x := if x < MIN_X then fexp (-MIN_X) else fexp (-x)
  let val := 1 / (1 + exp_neg_x)
  y * flog (val + MIN_) + (1 - y) * flog (1 - val + MIN_)

/-- Device helper `cross_entropy_loss_backward` (loss.cu lines 230-237):
per-element sigmoid cross-entropy gradient. -/
def cross_entropy_loss_backward (fexp : ℚ → ℚ) (x y : ℚ) : ℚ :=
  let MIN_ : ℚ := 1/1000000
  let MIN_X : ℚ := -707
  let exp_neg_x := if x < MIN_X then fexp (-MIN_X) else fexp (-x)
  let val := 1 / (1 + exp_neg_x);
  -1 * val * (y - val) * exp_neg_x / (1 - val + MIN_)

/-- Per-element body of `MultiCrossEntropy_Kernel` (loss.cu lines 246-260)
given `x = input[i]`, `y = label[i]` and the element's column weight
`w = target_weight[i % labels_per_sample]`.  The result is
`(increment of the thread-local loss_s, new input[i])`. -/
def MultiCrossEntropy_Kernel.element (fexp flog : ℚ → ℚ) (x y w : ℚ)
    (size scaler : ℚ) : ℚ × ℚ :=
  ((if y < -(1/2) then 0 else w * cross_entropy_loss fexp flog x y),
   (if y < -(1/2) then 0 else w * cross_entropy_loss_backward fexp x y / size * scaler))

/-- Cross-block reduction of `MultiCrossEntropy_Kernel` (loss.cu line 262,
`atomic_global_sum_div(-loss_s, bce_loss, size)`): every thread atomically
adds its negated local sum, pre-divided by the total element count, into the
zero-initialized loss scalar. -/
def MultiCrossEntropy_Kernel.final_reduce (loss_locals : List ℚ) (size : ℚ) : ℚ :=
  (loss_locals.map fun t => -t / size).sum

/-- Softmax probability of class 0 as computed in `CrossEntropy_Kernel`
(loss.cu lines 46-49). -/
def softmax0 (fexp : ℚ → ℚ) (z0 z1 : ℚ) : ℚ := fexp z0 / (fexp z0 + fexp z1)

/-- Softmax probability of class 1 as computed in `CrossEntropy_Kernel`
(loss.cu lines 46-50). -/
def softmax1 (fexp : ℚ → ℚ) (z0 z1 : ℚ) : ℚ := fexp z1 / (fexp z0 + fexp z1)

/-- Written from the claim wording for comparison: the class-1 indicator that
treats a label of exactly `1.0` as the positive class and every other label
value as the negative class. -/
def specExactOneIndic (y : ℚ) : ℚ := if y = 1 then 1 else 0

/-- Written from the code-amended wording: the class-1 indicator actually used
by `CrossEntropy_Kernel`, positive exactly when the label is `≥ 0.5`. -/
def specHalfIndic (y : ℚ) : ℚ := if 1/2 ≤ y then 1 else 0

/-- Per-sample result `CrossEntropy_Kernel` would produce under the claim's
exact-`1.0` indicator, for comparison with `CrossEntropy_Kernel.sample`. -/
def specCeSampleExactOne (fexp flog : ℚ → ℚ) (in1 in2 y : ℚ)
    (batch_size scaler : ℚ) : ℚ × ℚ × ℚ :=
  ((softmax0 fexp in1 in2 - (1 - specExactOneIndic y)) / batch_size * scaler,
   (softmax1 fexp in1 in2 - specExactOneIndic y) / batch_size * scaler,
   -1 * flog (if y = 1 then softmax1 fexp in1 in2 else softmax0 fexp in1 in2))

/-- The sigmoid `val = 1 / (1 + exp(-x))` of the specification (§4.3). -/
def specSigmoid (fexp : ℚ → ℚ) (x : ℚ) : ℚ := 1 / (1 + fexp (-x))

/-- The specification's per-sample loss term for the single-logit engine
(§4.3): `y·ln(val+ε) + (1−y)·ln(1−val+ε)` with `ε = 1e-6`. -/
def specBceLossTerm (fexp flog : ℚ → ℚ) (x y : ℚ) : ℚ :=
  y * flog (specSigmoid fexp x + 1/1000000) +
    (1 - y) * flog (1 - specSigmoid fexp x + 1/1000000)

/-- The specification's in-place gradient for the single-logit engine (§4.3):
`−val·(y−val)·exp(−x) / (1−val+ε) / batchSize × scaler`. -/
def specBceGrad (fexp : ℚ → ℚ) (x y batch_size scaler : ℚ) : ℚ :=
  -(specSigmoid fexp x * (y - specSigmoid fexp x) * fexp (-x)) /
    (1 - specSigmoid fexp x + 1/1000000) / batch_size * scaler

/-- The grid size the claim attributes to the multi-label launch:
`min(40, ceil(totalElements/256))`. -/
def specClaimedGridSize (batchsize labels_per_sample : Nat) : Nat :=
  min 40 ((batchsize * labels_per_sample + 255) / 256)

deriving instance DecidableEq for Except

/-- Two length-2 lists with equal entries at positions 0 and 1 are equal. -/
lemma list_len_two_ext {a b : List Nat} (ha : a.length = 2) (hb : b.length = 2)
    (h0 : a.getD 0 0 = b.getD 0 0) (h1 : a.getD 1 0 = b.getD 1 0) : a = b := by
  rcases List.length_eq_two.mp ha with ⟨x, y, rfl⟩
  rcases List.length_eq_two.mp hb with ⟨u, v, rfl⟩
  simp only [List.getD_cons_zero, List.getD_cons_succ] at h0 h1
  rw [h0, h1]

/-- C1: the multi-label launch does not use `min(40, ceil((B*L)/256))` blocks.
At `batchsize = 1`, `labels_per_sample = 256` (so `B*L = 256 > 0`) the code's
grid size `min(40, (B*L - 1)/256)` evaluates to `0` — the kernel is launched
with zero blocks — while the claimed formula evaluates to `1`. -/
theorem mce_grid_size_zero_at_256 :
    MultiCrossEntropyLoss.GRID_SIZE 1 256 = 0 ∧
    (MultiCrossEntropyLoss.fused_loss_computation 1 0 ⟨[1, 256], TensorFormat_t.HW⟩).1 =
      Except.ok ⟨0, 256⟩ ∧
    specClaimedGridSize 1 256 = 1 ∧ (0 : Nat) ≠ 1 :=
  ⟨rfl, rfl, rfl, by decide⟩

/-- C2: the caller's device is NOT restored on the WrongInput exit paths.
With the engine bound to device 1 and the caller on device 0, a format
mismatch makes `fused_loss_computation` of both single-block engines raise
`WrongInput` after the switch to device 1, and control returns with the
ambient device still 1, not the caller's 0: the trailing
`get_set_device(o_device)` of loss.cu lines 125/218 is skipped by the throw. -/
theorem ce_device_not_restored_on_wrong_input :
    CrossEntropyLoss.fused_loss_computation 1 0 ⟨[4, 2], TensorFormat_t.HW⟩
      ⟨[4, 1], TensorFormat_t.WH⟩ = (Except.error Error_t.WrongInput, 1) ∧
    BinaryCrossEntropyLoss.fused_loss_computation 1 0 ⟨[4, 1], TensorFormat_t.HW⟩
      ⟨[4, 1], TensorFormat_t.WH⟩ = (Except.error Error_t.WrongInput, 1) ∧
    (1 : Int) ≠ 0 :=
  ⟨rfl, rfl, by decide⟩

/-- C3 counterexample: both single-block engines accept mismatched label/input
shapes at construction time.  With label shape `[3,1]` and input shape `[4,2]`
(mismatched batch and feature dimensions) both constructors succeed instead of
failing with a WrongInput-class error. -/
theorem ce_construct_accepts_mismatched_shapes :
    CrossEntropyLoss.construct ⟨[3, 1], TensorFormat_t.HW⟩ ⟨[4, 2], TensorFormat_t.HW⟩
      ⟨[1, 1], TensorFormat_t.HW⟩ 0 =
      Except.ok ⟨0, ⟨[3, 1], TensorFormat_t.HW⟩, ⟨[4, 2], TensorFormat_t.HW⟩,
        ⟨[1, 1], TensorFormat_t.HW⟩⟩ ∧
    BinaryCrossEntropyLoss.construct ⟨[3, 1], TensorFormat_t.HW⟩ ⟨[4, 2], TensorFormat_t.HW⟩
      ⟨[1, 1], TensorFormat_t.HW⟩ 0 =
      Except.ok ⟨0, ⟨[3, 1], TensorFormat_t.HW⟩, ⟨[4, 2], TensorFormat_t.HW⟩,
        ⟨[1, 1], TensorFormat_t.HW⟩⟩ ∧
    ([3, 1] : List Nat) ≠ [4, 2] :=
  ⟨rfl, rfl, by decide⟩

/-- C3 (amended): only `MultiCrossEntropyLoss` validates shapes at construction
time — it fails deterministically with `WrongInput` before any device memory is
touched whenever the label and input dimension lists differ — while the
`CrossEntropyLoss` and `BinaryCrossEntropyLoss` constructors perform no shape
validation at all and succeed for every shape pair, deferring their checks to
`fused_loss_computation`. -/
theorem construction_validation_only_multi
    (lt it st : Tensor) (d : Int) (lt2 it2 : Tensor) (w : List ℚ)
    (hmis : lt2.dims ≠ it2.dims) :
    CrossEntropyLoss.construct lt it st d = Except.ok ⟨d, lt, it, st⟩ ∧
    BinaryCrossEntropyLoss.construct lt it st d = Except.ok ⟨d, lt, it, st⟩ ∧
    MultiCrossEntropyLoss.construct lt2 it2 w = Except.error Error_t.WrongInput := by
  refine ⟨rfl, rfl, ?_⟩
  have hguard : lt2.dims.length ≠ 2 ∨ lt2.format ≠ TensorFormat_t.HW ∨
      it2.dims.length ≠ 2 ∨ it2.format ≠ TensorFormat_t.HW ∨
      lt2.dims.getD 0 0 ≠ it2.dims.getD 0 0 ∨
      lt2.dims.getD 1 0 ≠ it2.dims.getD 1 0 := by
    by_cases h1 : lt2.dims.length = 2
    · by_cases h2 : it2.dims.length = 2
      · by_cases h3 : lt2.dims.getD 0 0 = it2.dims.getD 0 0
        · by_cases h4 : lt2.dims.getD 1 0 = it2.dims.getD 1 0
          · exact absurd (list_len_two_ext h1 h2 h3 h4) hmis
          · exact Or.inr (Or.inr (Or.inr (Or.inr (Or.inr h4))))
        · exact Or.inr (Or.inr (Or.inr (Or.inr (Or.inl h3))))
      · exact Or.inr (Or.inr (Or.inl h2))
    · exact Or.inl h1
  simp only [MultiCrossEntropyLoss.construct, if_pos hguard]

/-- Witness for the amended C3 theorem at concrete tensors. -/
theorem construction_validation_only_multi_witness :
    CrossEntropyLoss.construct ⟨[8, 1], TensorFormat_t.HW⟩ ⟨[9, 2], TensorFormat_t.HW⟩
      ⟨[1, 1], TensorFormat_t.HW⟩ 3 =
      Except.ok ⟨3, ⟨[8, 1], TensorFormat_t.HW⟩, ⟨[9, 2], TensorFormat_t.HW⟩,
        ⟨[1, 1], TensorFormat_t.HW⟩⟩ ∧
    BinaryCrossEntropyLoss.construct ⟨[8, 1], TensorFormat_t.HW⟩ ⟨[9, 2], TensorFormat_t.HW⟩
      ⟨[1, 1], TensorFormat_t.HW⟩ 3 =
      Except.ok ⟨3, ⟨[8, 1], TensorFormat_t.HW⟩, ⟨[9, 2], TensorFormat_t.HW⟩,
        ⟨[1, 1], TensorFormat_t.HW⟩⟩ ∧
    MultiCrossEntropyLoss.construct ⟨[8, 1], TensorFormat_t.HW⟩ ⟨[9, 2], TensorFormat_t.HW⟩
      [1] = Except.error Error_t.WrongInput :=
  construction_validation_only_multi ⟨[8, 1], TensorFormat_t.HW⟩ ⟨[9, 2], TensorFormat_t.HW⟩
    ⟨[1, 1], TensorFormat_t.HW⟩ 3 ⟨[8, 1], TensorFormat_t.HW⟩ ⟨[9, 2], TensorFormat_t.HW⟩
    [1] (by decide)

/-- C4 counterexample: `BinaryCrossEntropyLoss::fused_loss_computation` DOES
check layout agreement.  With input `[4,1]` row-major (feature dimension 1)
and label `[4,1]` column-major, the formats differ and the call raises
`WrongInput` instead of proceeding to the kernel launch. -/
theorem bce_format_mismatch_raises :
    BinaryCrossEntropyLoss.validate ⟨[4, 1], TensorFormat_t.HW⟩ ⟨[4, 1], TensorFormat_t.WH⟩ =
      Except.error Error_t.WrongInput ∧
    Tensor.feature_dim ⟨[4, 1], TensorFormat_t.HW⟩ = 1 ∧
    TensorFormat_t.HW ≠ TensorFormat_t.WH :=
  ⟨rfl, rfl, by decide⟩

/-- C4 (amended): `BinaryCrossEntropyLoss::fused_loss_computation` checks
format agreement between the input and label tensors exactly as the two-way
engine does — any format mismatch raises `WrongInput` — and the check it omits
is the input/label batch-dimension agreement: whenever the formats match and
the input's feature dimension is 1, the call proceeds to the kernel launch
regardless of the label tensor's dimensions. -/
theorem bce_validation_checks_format_not_batch
    (input1 label1 input2 label2 : Tensor)
    (hne : input1.format ≠ label1.format)
    (heq : input2.format = label2.format) (hfd : input2.feature_dim = 1) :
    BinaryCrossEntropyLoss.validate input1 label1 = Except.error Error_t.WrongInput ∧
    BinaryCrossEntropyLoss.validate input2 label2 = Except.ok () := by
  constructor
  · simp only [BinaryCrossEntropyLoss.validate, if_pos hne]
  · simp [BinaryCrossEntropyLoss.validate, heq, hfd]

/-- Witness for the amended C4 theorem at concrete tensors (note the second
pair's label has batch dimension 9 against the input's 6 and still passes). -/
theorem bce_validation_checks_format_not_batch_witness :
    BinaryCrossEntropyLoss.validate ⟨[6, 1], TensorFormat_t.HW⟩ ⟨[6, 1], TensorFormat_t.WH⟩ =
      Except.error Error_t.WrongInput ∧
    BinaryCrossEntropyLoss.validate ⟨[6, 1], TensorFormat_t.HW⟩ ⟨[9, 9], TensorFormat_t.HW⟩ =
      Except.ok () :=
  bce_validation_checks_format_not_batch ⟨[6, 1], TensorFormat_t.HW⟩
    ⟨[6, 1], TensorFormat_t.WH⟩ ⟨[6, 1], TensorFormat_t.HW⟩ ⟨[9, 9], TensorFormat_t.HW⟩
    (by decide) (by decide) (by decide)

/-- C5: masking in `MultiCrossEntropy_Kernel`.  For every element whose label
is `< -0.5`, for any input value, weight, element count and scaler, the
gradient written back over `input[i]` is exactly `0` and the element's
contribution to the thread-local loss accumulator is exactly `0` (adding it
leaves any accumulator value unchanged). -/
theorem multi_ce_masked_element_zero (fexp flog : ℚ → ℚ) (x y w size scaler acc : ℚ)
    (h : y < -(1/2)) :
    MultiCrossEntropy_Kernel.element fexp flog x y w size scaler = (0, 0) ∧
    acc + (MultiCrossEntropy_Kernel.element fexp flog x y w size scaler).1 = acc := by
  have he : MultiCrossEntropy_Kernel.element fexp flog x y w size scaler = (0, 0) := by
    unfold MultiCrossEntropy_Kernel.element
    rw [if_pos h, if_pos h]
  refine ⟨he, ?_⟩
  rw [he]
  simp

/-- Witness for C5 at a concrete masked element (`label = -1`). -/
theorem multi_ce_masked_element_zero_witness :
    ((-1 : ℚ) < -(1/2)) ∧
    (MultiCrossEntropy_Kernel.element (fun t => t) (fun t => t) 5 (-1) 3 6 2 = (0, 0) ∧
      (7 : ℚ) + (MultiCrossEntropy_Kernel.element (fun t => t) (fun t => t) 5 (-1) 3 6 2).1 = 7) :=
  ⟨by norm_num,
    multi_ce_masked_element_zero (fun t => t) (fun t => t) 5 (-1) 3 6 2 7 (by norm_num)⟩

/-- C6 counterexample: the class indicator of `CrossEntropy_Kernel` does not
treat only a label of exactly `1.0` as the positive class.  At label `3/4`
(which is not `1.0`), with equal logits (softmax `1/2`/`1/2`), batch size 1
and scaler 1, the kernel writes gradient `-1/2` at the class-1 position —
the positive-class indicator fired — whereas the claim's exact-`1.0`
indicator would give `1/2`. -/
theorem ce_indicator_not_exactly_one :
    (CrossEntropy_Kernel.sample (fun _ => 1) (fun t => t) 0 0 (3/4) 1 1).2.1 = -(1/2) ∧
    (specCeSampleExactOne (fun _ => 1) (fun t => t) 0 0 (3/4) 1 1).2.1 = 1/2 ∧
    ((3 : ℚ)/4 ≠ 1) ∧ ((-(1/2) : ℚ) ≠ 1/2) := by
  refine ⟨?_, ?_, by norm_num, by norm_num⟩
  · show ((1/(1+1) : ℚ) - if ¬(3/4 : ℚ) < 1/2 then (1 : ℚ) else 0) / 1 * 1 = -(1/2)
    norm_num
  · simp [specCeSampleExactOne, softmax1, specExactOneIndic]
    norm_num

/-- C6 (amended): in `CrossEntropy_Kernel` the class indicator used in both
the loss term and the in-place gradients
`(a_i − indicator) / batchSize × scaler` treats every label value `≥ 0.5` as
the positive class and every label value `< 0.5` as the negative class. -/
theorem ce_indicator_threshold_half (fexp flog : ℚ → ℚ) (in1 in2 y B S : ℚ) :
    CrossEntropy_Kernel.sample fexp flog in1 in2 y B S =
      ((softmax0 fexp in1 in2 - (1 - specHalfIndic y)) / B * S,
       (softmax1 fexp in1 in2 - specHalfIndic y) / B * S,
       -1 * flog (if 1/2 ≤ y then softmax1 fexp in1 in2 else softmax0 fexp in1 in2)) := by
  by_cases h : y < 1/2
  · have h2 : ¬(1/2 : ℚ) ≤ y := not_le.mpr h
    simp only [CrossEntropy_Kernel.sample, softmax0, softmax1, specHalfIndic,
      if_pos h, if_neg h2, if_neg (not_not_intro h), Prod.mk.injEq]
    norm_num
  · have h2 : (1/2 : ℚ) ≤ y := not_lt.mp h
    simp only [CrossEntropy_Kernel.sample, softmax0, softmax1, specHalfIndic,
      if_neg h, if_pos h2, if_pos h, Prod.mk.injEq]
    norm_num

/-- C7: `BinaryCrossEntropy_Kernel` per-sample numerics.  The logit is clamped
to `max(x, -707)` before the exponential; the loss contribution equals the
specification's `y·ln(val+ε) + (1−y)·ln(1−val+ε)` with `val = 1/(1+exp(−x))`
and `ε = 1e-6`; and the value written in place over `input[i]` equals
`−val·(y−val)·exp(−x) / (1−val+ε) / batchSize × scaler`. -/
theorem bce_kernel_formulas (fexp flog : ℚ → ℚ) (input_i y B S : ℚ) :
    BinaryCrossEntropy_Kernel.sample fexp flog input_i y B S =
      (specBceLossTerm fexp flog (max input_i (-707)) y,
       specBceGrad fexp (max input_i (-707)) y B S) := by
  by_cases h : input_i < -707
  · rw [max_eq_right h.le]
    simp only [BinaryCrossEntropy_Kernel.sample, specBceLossTerm, specBceGrad, specSigmoid,
      if_pos h, Prod.mk.injEq]
    refine ⟨trivial, ?_⟩
    ring
  · rw [max_eq_left (not_lt.mp h)]
    simp only [BinaryCrossEntropy_Kernel.sample, specBceLossTerm, specBceGrad, specSigmoid,
      if_neg h, Prod.mk.injEq]
    refine ⟨trivial, ?_⟩
    ring

/-- C8: scaling property for all three kernels.  For every scaler `S`, every
gradient value written back equals `S` times the gradient written with scaler
1, and every loss contribution — hence also the scalar loss produced by each
kernel's final reduction over any set of contributions — is identical for
every choice of `S`. -/
theorem gradient_scales_linearly_loss_invariant (fexp flog : ℚ → ℚ)
    (in1 in2 xq yq w B size S : ℚ)
    (samples : List (ℚ × ℚ × ℚ)) (pairs : List (ℚ × ℚ)) (elems : List (ℚ × ℚ × ℚ)) :
    ((CrossEntropy_Kernel.sample fexp flog in1 in2 yq B S).1 =
        S * (CrossEntropy_Kernel.sample fexp flog in1 in2 yq B 1).1 ∧
      (CrossEntropy_Kernel.sample fexp flog in1 in2 yq B S).2.1 =
        S * (CrossEntropy_Kernel.sample fexp flog in1 in2 yq B 1).2.1 ∧
      (CrossEntropy_Kernel.sample fexp flog in1 in2 yq B S).2.2 =
        (CrossEntropy_Kernel.sample fexp flog in1 in2 yq B 1).2.2) ∧
    ((BinaryCrossEntropy_Kernel.sample fexp flog xq yq B S).2 =
        S * (BinaryCrossEntropy_Kernel.sample fexp flog xq yq B 1).2 ∧
      (BinaryCrossEntropy_Kernel.sample fexp flog xq yq B S).1 =
        (BinaryCrossEntropy_Kernel.sample fexp flog xq yq B 1).1) ∧
    ((MultiCrossEntropy_Kernel.element fexp flog xq yq w size S).2 =
        S * (MultiCrossEntropy_Kernel.element fexp flog xq yq w size 1).2 ∧
      (MultiCrossEntropy_Kernel.element fexp flog xq yq w size S).1 =
        (MultiCrossEntropy_Kernel.element fexp flog xq yq w size 1).1) ∧
    CrossEntropy_Kernel.final_reduce
        (samples.map fun s => (CrossEntropy_Kernel.sample fexp flog s.1 s.2.1 s.2.2 B S).2.2) B =
      CrossEntropy_Kernel.final_reduce
        (samples.map fun s => (CrossEntropy_Kernel.sample fexp flog s.1 s.2.1 s.2.2 B 1).2.2) B ∧
    BinaryCrossEntropy_Kernel.final_reduce
        (pairs.map fun p => (BinaryCrossEntropy_Kernel.sample fexp flog p.1 p.2 B S).1) B =
      BinaryCrossEntropy_Kernel.final_reduce
        (pairs.map fun p => (BinaryCrossEntropy_Kernel.sample fexp flog p.1 p.2 B 1).1) B ∧
    MultiCrossEntropy_Kernel.final_reduce
        [(elems.map fun e => (MultiCrossEntropy_Kernel.element fexp flog e.1 e.2.1 e.2.2 size S).1).sum]
        size =
      MultiCrossEntropy_Kernel.final_reduce
        [(elems.map fun e => (MultiCrossEntropy_Kernel.element fexp flog e.1 e.2.1 e.2.2 size 1).1).sum]
        size := by
  have hceLoss : ∀ a b c : ℚ, (CrossEntropy_Kernel.sample fexp flog a b c B S).2.2 =
      (CrossEntropy_Kernel.sample fexp flog a b c B 1).2.2 := by
    intro a b c
    simp [CrossEntropy_Kernel.sample]
  have hbceLoss : ∀ a b : ℚ, (BinaryCrossEntropy_Kernel.sample fexp flog a b B S).1 =
      (BinaryCrossEntropy_Kernel.sample fexp flog a b B 1).1 := by
    intro a b
    simp [BinaryCrossEntropy_Kernel.sample]
  have hmceLoss : ∀ a b c : ℚ, (MultiCrossEntropy_Kernel.element fexp flog a b c size S).1 =
      (MultiCrossEntropy_Kernel.element fexp flog a b c size 1).1 := by
    intro a b c
    simp [MultiCrossEntropy_Kernel.element]
  refine ⟨⟨?_, ?_, hceLoss in1 in2 yq⟩, ⟨?_, hbceLoss xq yq⟩, ⟨?_, hmceLoss xq yq w⟩,
    ?_, ?_, ?_⟩
  · simp only [CrossEntropy_Kernel.sample]
    ring
  · simp only [CrossEntropy_Kernel.sample]
    ring
  · simp only [BinaryCrossEntropy_Kernel.sample]
    ring
  · simp only [MultiCrossEntropy_Kernel.element]
    split_ifs
    · ring
    · ring
  · unfold CrossEntropy_Kernel.final_reduce
    have : (fun s : ℚ × ℚ × ℚ => (CrossEntropy_Kernel.sample fexp flog s.1 s.2.1 s.2.2 B S).2.2) =
        fun s : ℚ × ℚ × ℚ => (CrossEntropy_Kernel.sample fexp flog s.1 s.2.1 s.2.2 B 1).2.2 :=
      funext fun s => hceLoss s.1 s.2.1 s.2.2
    rw [this]
  · unfold BinaryCrossEntropy_Kernel.final_reduce
    have : (fun p : ℚ × ℚ => (BinaryCrossEntropy_Kernel.sample fexp flog p.1 p.2 B S).1) =
        fun p : ℚ × ℚ => (BinaryCrossEntropy_Kernel.sample fexp flog p.1 p.2 B 1).1 :=
      funext fun p => hbceLoss p.1 p.2
    rw [this]
  · unfold MultiCrossEntropy_Kernel.final_reduce
    have : (fun e : ℚ × ℚ × ℚ =>
          (MultiCrossEntropy_Kernel.element fexp flog e.1 e.2.1 e.2.2 size S).1) =
        fun e : ℚ × ℚ × ℚ =>
          (MultiCrossEntropy_Kernel.element fexp flog e.1 e.2.1 e.2.2 size 1).1 :=
      funext fun e => hmceLoss e.1 e.2.1 e.2.2
    rw [this]

/-- C9 counterexample: the `MultiCrossEntropyLoss` constructor does not accept
every pair of 2-dimensional tensors with matching layout, identical shape and
a weight vector of the label-column length.  With label and input both of
shape `[2,3]` in the (matching) column-major `WH` layout and a weight vector
of length 3, every condition of the claim holds, yet construction raises
`WrongInput` — the code requires each format to be exactly `HW`. -/
theorem multi_construct_rejects_wh_layout :
    MultiCrossEntropyLoss.construct ⟨[2, 3], TensorFormat_t.WH⟩ ⟨[2, 3], TensorFormat_t.WH⟩
      [1, 1, 1] = Except.error Error_t.WrongInput ∧
    (Tensor.mk [2, 3] TensorFormat_t.WH).dims.length = 2 ∧
    (Tensor.mk [2, 3] TensorFormat_t.WH).format = (Tensor.mk [2, 3] TensorFormat_t.WH).format ∧
    (Tensor.mk [2, 3] TensorFormat_t.WH).dims = (Tensor.mk [2, 3] TensorFormat_t.WH).dims ∧
    ([1, 1, 1] : List ℚ).length = (Tensor.mk [2, 3] TensorFormat_t.WH).dims.getD 1 0 :=
  ⟨rfl, rfl, rfl, rfl, rfl⟩

/-- C9 (amended): the `MultiCrossEntropyLoss` constructor raises `WrongInput`
if and only if one of the following fails: the label and input tensors are
each exactly 2-dimensional, each is in the row-major `HW` layout (not merely
matching layouts), they have identical shape on both dimensions, and the
supplied weight-vector length equals the label-column count `dims[1]`; for
every input satisfying all of these, construction succeeds. -/
theorem multi_construct_error_iff (label input : Tensor) (w : List ℚ) :
    MultiCrossEntropyLoss.construct label input w = Except.error Error_t.WrongInput ↔
      ¬(label.dims.length = 2 ∧ label.format = TensorFormat_t.HW ∧
        input.dims.length = 2 ∧ input.format = TensorFormat_t.HW ∧
        label.dims = input.dims ∧ w.length = input.dims.getD 1 0) := by
  unfold MultiCrossEntropyLoss.construct
  split_ifs with h1 h2
  · refine iff_of_true rfl fun hc => ?_
    obtain ⟨a, b, c, d, e, f⟩ := hc
    rcases h1 with h | h | h | h | h | h
    · exact h a
    · exact h b
    · exact h c
    · exact h d
    · exact h (by rw [e])
    · exact h (by rw [e])
  · refine iff_of_true rfl fun hc => ?_
    exact h2 hc.2.2.2.2.2
  · push_neg at h1 h2
    obtain ⟨a, b, c, d, e0, e1⟩ := h1
    refine iff_of_false ?_ (not_not_intro ⟨a, b, c, d, list_len_two_ext a c e0 e1, h2⟩)
    simp

/-- C10: neither `CrossEntropyLoss` nor `BinaryCrossEntropyLoss` constrains
the label tensor's feature-dimension size.  For the two-way engine, any label
tensor whose format matches the input's and whose batch-dimension entry
matches the input's passes validation, whatever its feature-dimension entry;
for the single-logit engine any label tensor with matching format passes.
Moreover both kernels read the label for sample `i` only at flat index `i`
of the label buffer: two label buffers agreeing at index `i` produce
identical per-sample results. -/
theorem label_feature_dim_unconstrained
    (ice lce ib lb : Tensor) (fexp flog : ℚ → ℚ) (ibuf lbuf lbuf2 : Nat → ℚ)
    (bs1 fd1 : Nat) (rm1 : Bool) (bs2 : Nat) (S : ℚ) (i : Nat)
    (h1 : lce.format = ice.format) (h2 : ice.feature_dim = 2)
    (h3 : lce.batch_size = ice.batch_size)
    (h4 : lb.format = ib.format) (h5 : ib.feature_dim = 1)
    (hread : lbuf i = lbuf2 i) :
    CrossEntropyLoss.validate ice lce = Except.ok () ∧
    BinaryCrossEntropyLoss.validate ib lb = Except.ok () ∧
    CrossEntropy_Kernel.step fexp flog ibuf lbuf bs1 fd1 rm1 S i =
      CrossEntropy_Kernel.step fexp flog ibuf lbuf2 bs1 fd1 rm1 S i ∧
    BinaryCrossEntropy_Kernel.step fexp flog ibuf lbuf bs2 S i =
      BinaryCrossEntropy_Kernel.step fexp flog ibuf lbuf2 bs2 S i := by
  have hfmt : ¬ice.format ≠ lce.format := not_not_intro h1.symm
  have hfd : ¬ice.feature_dim ≠ 2 := not_not_intro h2
  refine ⟨?_, ?_, ?_, ?_⟩
  · by_cases hrm : ice.row_major
    · have hlrm : lce.row_major := by
        unfold Tensor.row_major at hrm ⊢
        rw [h1]
        exact hrm
      have hb : ice.dims.getD 0 0 = lce.dims.getD 0 0 := by
        have h3' := h3.symm
        unfold Tensor.batch_size at h3'
        rw [if_pos hrm, if_pos hlrm] at h3'
        exact h3'
      unfold CrossEntropyLoss.validate
      rw [if_neg hfmt, if_neg hfd, if_neg (fun hc => hc.2 hb),
        if_neg (fun hc => hc.1 hrm)]
    · have hlrm : ¬lce.row_major := by
        unfold Tensor.row_major at hrm ⊢
        rw [h1]
        exact hrm
      have hb : ice.dims.getD 1 0 = lce.dims.getD 1 0 := by
        have h3' := h3.symm
        unfold Tensor.batch_size at h3'
        rw [if_neg hrm, if_neg hlrm] at h3'
        exact h3'
      unfold CrossEntropyLoss.validate
      rw [if_neg hfmt, if_neg hfd, if_neg (fun hc => hrm hc.1),
        if_neg (fun hc => hc.2 hb)]
  · unfold BinaryCrossEntropyLoss.validate
    rw [if_neg (not_not_intro h4.symm), if_neg (not_not_intro h5)]
  · unfold CrossEntropy_Kernel.step
    rw [hread]
  · unfold BinaryCrossEntropy_Kernel.step
    rw [hread]

/-- Witness for C10 at concrete tensors and buffers: the CE label tensor has
feature-dimension entry 7 and the BCE label tensor has dimensions `[5, 9]`,
and both validations pass; the two label buffers differ everywhere except at
the read index 0. -/
theorem label_feature_dim_unconstrained_witness :
    CrossEntropyLoss.validate ⟨[4, 2], TensorFormat_t.HW⟩ ⟨[4, 7], TensorFormat_t.HW⟩ =
      Except.ok () ∧
    BinaryCrossEntropyLoss.validate ⟨[5, 1], TensorFormat_t.HW⟩ ⟨[5, 9], TensorFormat_t.HW⟩ =
      Except.ok () ∧
    CrossEntropy_Kernel.step (fun t => t) (fun t => t) (fun _ => 0) (fun _ => 1) 4 2 true 1 0 =
      CrossEntropy_Kernel.step (fun t => t) (fun t => t) (fun _ => 0)
        (fun n => if n = 0 then 1 else 2) 4 2 true 1 0 ∧
    BinaryCrossEntropy_Kernel.step (fun t => t) (fun t => t) (fun _ => 0) (fun _ => 1) 5 1 0 =
      BinaryCrossEntropy_Kernel.step (fun t => t) (fun t => t) (fun _ => 0)
        (fun n => if n = 0 then 1 else 2) 5 1 0 :=
  label_feature_dim_unconstrained ⟨[4, 2], TensorFormat_t.HW⟩ ⟨[4, 7], TensorFormat_t.HW⟩
    ⟨[5, 1], TensorFormat_t.HW⟩ ⟨[5, 9], TensorFormat_t.HW⟩ (fun t => t) (fun t => t)
    (fun _ => 0) (fun _ => 1) (fun n => if n = 0 then 1 else 2) 4 2 true 5 1 0
    rfl rfl rfl rfl rfl (by norm_num)
